import Mathlib

/-!
Shallow embedding of the solar-system simulator core (`main.py`):
the `CelestialBody` class, the `SolarSystem` class with its body list,
trail buffers, scale-mode functions and per-frame `update`, together
with the CLI scale-mode menu mapping and the speed slider.  Machine
floats are modelled as real numbers.
-/

/-- State of one celestial body; embeds the Python class `CelestialBody`.
`tilt` and `angle` are in radians, `position` is the raw Cartesian position. -/
structure CelestialBody where
  name : String
  radius : ℝ
  distance : ℝ
  orbital_period : ℝ
  color : String
  tilt : ℝ
  angle : ℝ
  position : ℝ × ℝ × ℝ

/-- Embeds `CelestialBody.__init__`: tilt is given in degrees and converted with
`np.radians`; the starting angle is the value drawn by `np.random.uniform(0, 2*pi)`,
passed here explicitly as `rand_angle`; the position starts at the origin. -/
noncomputable def mkCelestialBody (name : String) (radius distance orbital_period : ℝ)
    (color : String) (tilt_degrees : ℝ) (rand_angle : ℝ) : CelestialBody where
  name := name
  radius := radius
  distance := distance
  orbital_period := orbital_period
  color := color
  tilt := tilt_degrees * (Real.pi / 180)
  angle := rand_angle
  position := (0, 0, 0)

/-- Embeds `CelestialBody.update_position`: advances the phase angle by
`(2*pi / orbital_period) * time_step`, recomputes the position with the
orbital tilt applied, and returns the updated body together with the
returned position value. -/
noncomputable def update_position (b : CelestialBody) (time_step : ℝ) :
    CelestialBody × (ℝ × ℝ × ℝ) :=
  let angular_velocity := (2 * Real.pi) / b.orbital_period
  let angle := b.angle + angular_velocity * time_step
  let x := b.distance * Real.cos angle
  let y0 := b.distance * Real.sin angle
  let z := y0 * Real.sin b.tilt
  let y := y0 * Real.cos b.tilt
  ({ b with angle := angle, position := (x, y, z) }, (x, y, z))

/-- Embeds the trail-buffer step of `SolarSystem.update` (lines 124-126):
append the new point, then pop the front entry once if the length now
exceeds the capacity. -/
def pushTrail {α : Type} (cap : ℕ) (trail : List α) (p : α) : List α :=
  let t := trail ++ [p]
  if cap < t.length then t.tail else t

/-- State of the simulator; embeds the Python class `SolarSystem`.
The trail dictionary is an association list keyed by body name. -/
structure SolarSystem where
  scale_mode : String
  time_step : ℝ
  bodies : List CelestialBody
  trails : List (String × List (ℝ × ℝ × ℝ))
  trail_length : ℕ
  paused : Bool
  show_orbits : Bool
  show_labels : Bool

/-- Catalog entry; embeds one positional tuple of `bodies_data`. -/
structure CatalogEntry where
  name : String
  radius : ℝ
  distance : ℝ
  period : ℝ
  color : String
  tilt_degrees : ℝ

/-- Hard-coded catalog of `SolarSystem._initialize_bodies`. -/
noncomputable def bodies_data : List CatalogEntry :=
  [{ name := "Sun", radius := 696000, distance := 0, period := 0,
     color := "#FDB813", tilt_degrees := 0 },
   { name := "Mercury", radius := 2440, distance := 0.39, period := 88,
     color := "#8C7853", tilt_degrees := 7.0 },
   { name := "Venus", radius := 6052, distance := 0.72, period := 225,
     color := "#FFC649", tilt_degrees := 3.4 },
   { name := "Earth", radius := 6371, distance := 1.0, period := 365,
     color := "#4169E1", tilt_degrees := 0.0 },
   { name := "Mars", radius := 3390, distance := 1.52, period := 687,
     color := "#CD5C5C", tilt_degrees := 1.9 },
   { name := "Jupiter", radius := 69911, distance := 5.20, period := 4333,
     color := "#DAA520", tilt_degrees := 1.3 },
   { name := "Saturn", radius := 58232, distance := 9.54, period := 10759,
     color := "#F4A460", tilt_degrees := 2.5 },
   { name := "Uranus", radius := 25362, distance := 19.19, period := 30687,
     color := "#4FD0E0", tilt_degrees := 0.8 },
   { name := "Neptune", radius := 24622, distance := 30.07, period := 60190,
     color := "#4169E1", tilt_degrees := 1.8 }]

/-- Body-construction loop of `SolarSystem._initialize_bodies`: one
`CelestialBody(*data)` per catalog entry; the random draw consumed by the
i-th constructor call is `rand i`. -/
noncomputable def init_bodies_aux (rand : ℕ → ℝ) : ℕ → List CatalogEntry → List CelestialBody
  | _, [] => []
  | i, e :: es =>
      mkCelestialBody e.name e.radius e.distance e.period e.color e.tilt_degrees (rand i) ::
        init_bodies_aux rand (i + 1) es

/-- Embeds `SolarSystem._initialize_bodies`: builds the body list and the
trail dictionary, which gets an empty entry for every body except the Sun. -/
noncomputable def init_bodies (catalog : List CatalogEntry) (rand : ℕ → ℝ) :
    List CelestialBody × List (String × List (ℝ × ℝ × ℝ)) :=
  (init_bodies_aux rand 0 catalog,
   (catalog.filter (fun e => e.name ≠ "Sun")).map (fun e => (e.name, [])))

/-- Embeds `SolarSystem.__init__`: scale mode as given, time step 1,
trail capacity 100, unpaused, with the hard-coded catalog. -/
noncomputable def mkSolarSystem (scale_mode : String) (rand : ℕ → ℝ) : SolarSystem where
  scale_mode := scale_mode
  time_step := 1
  bodies := (init_bodies bodies_data rand).1
  trails := (init_bodies bodies_data rand).2
  trail_length := 100
  paused := false
  show_orbits := true
  show_labels := true

/-- Embeds `SolarSystem.get_scaled_radius`; the method reads only
`self.scale_mode`, passed here explicitly. -/
noncomputable def get_scaled_radius (scale_mode : String) (radius : ℝ) : ℝ :=
  if scale_mode = "realistic" then radius / 100000
  else if scale_mode = "logarithmic" then 0.02 + Real.logb 10 radius * 0.01
  else 0.05 + (radius / 100000) * 2

/-- Embeds `SolarSystem.get_scaled_distance`; the method reads only
`self.scale_mode`, passed here explicitly. -/
noncomputable def get_scaled_distance (scale_mode : String) (distance : ℝ) : ℝ :=
  if scale_mode = "realistic" then distance
  else if scale_mode = "logarithmic" then
    if distance = 0 then 0 else Real.logb 10 (distance * 10 + 1) * 3
  else distance ^ (0.7 : ℝ) * 5

/-- Embeds the dictionary write `self.trails[name].append(...)` guarded by
`if body.name in self.trails`: the entry for key `k` is updated by `f`
when present, and nothing happens when the key is absent. -/
def updateTrailMap (trails : List (String × List (ℝ × ℝ × ℝ))) (k : String)
    (f : List (ℝ × ℝ × ℝ) → List (ℝ × ℝ × ℝ)) : List (String × List (ℝ × ℝ × ℝ)) :=
  trails.map (fun kv => if kv.1 = k then (kv.1, f kv.2) else kv)

/-- Embeds `SolarSystem.update`: when paused do nothing; otherwise advance
every body except the first (the Sun) with the current time step and append
each advanced body's raw position to its trail buffer, evicting the oldest
entry beyond the capacity. The frame argument is unused, as in the source. -/
noncomputable def SolarSystem.update (s : SolarSystem) (_frame : ℕ) : SolarSystem :=
  if s.paused then s
  else
    let moved := (s.bodies.drop 1).map (fun b => (update_position b s.time_step).1)
    { s with
      bodies := s.bodies.take 1 ++ moved
      trails := moved.foldl
        (fun ts b => updateTrailMap ts b.name
          (fun tr => pushTrail s.trail_length tr b.position)) s.trails }

/-- Embeds the rendering-side scaling of a raw position (lines 182-186 of
the source): each component is multiplied by `get_scaled_distance(1) / 1`. -/
noncomputable def scaled_display_position (scale_mode : String) (pos : ℝ × ℝ × ℝ) : ℝ × ℝ × ℝ :=
  (pos.1 * (get_scaled_distance scale_mode 1 / 1),
   pos.2.1 * (get_scaled_distance scale_mode 1 / 1),
   pos.2.2 * (get_scaled_distance scale_mode 1 / 1))

/-- Embeds the `scale_modes` menu dictionary of `main` together with the
`.get(choice, 'logarithmic')` lookup. -/
def scale_mode_of_choice (choice : String) : String :=
  (([("1", "realistic"), ("2", "logarithmic"), ("3", "artistic"),
     ("", "logarithmic")].lookup choice).getD "logarithmic")

/-- Modelled from the spec: the Speed slider is created in the source with
bounds 0.1 and 10.0 (line 252); the widget itself, which keeps its value
inside those bounds, lives in the external plotting library and is not part
of the repository, so the clamp is modelled here from the spec's `set_speed`
contract. -/
noncomputable def slider_value (v : ℝ) : ℝ := max 0.1 (min 10.0 v)

/-- Embeds the `update_speed` callback: the (clamped) slider value becomes
the new per-tick time step. -/
noncomputable def update_speed (s : SolarSystem) (v : ℝ) : SolarSystem :=
  { s with time_step := slider_value v }

/-- Claim C1: for a body with positive orbital period, `update_position`
with a non-negative time step sets the new phase to
`old + (2*pi/period) * Δ` and sets and returns the position
`(d*cos a, d*sin a*cos t, d*sin a*sin t)` at the new phase `a`. -/
theorem claim1_update_position (b : CelestialBody) (Δ : ℝ)
    (hp : 0 < b.orbital_period) (hΔ : 0 ≤ Δ) :
    (update_position b Δ).1.angle = b.angle + 2 * Real.pi / b.orbital_period * Δ ∧
    (update_position b Δ).1.position =
      (b.distance * Real.cos ((update_position b Δ).1.angle),
       b.distance * Real.sin ((update_position b Δ).1.angle) * Real.cos b.tilt,
       b.distance * Real.sin ((update_position b Δ).1.angle) * Real.sin b.tilt) ∧
    (update_position b Δ).2 = (update_position b Δ).1.position :=
  ⟨rfl, rfl, rfl⟩

/-- Concrete body used to witness claim C1. -/
noncomputable def wBody : CelestialBody :=
  { name := "W", radius := 1, distance := 1, orbital_period := 2, color := "c",
    tilt := 0, angle := 0, position := (0, 0, 0) }

/-- Witness for claim C1 at a concrete body and time step. -/
theorem claim1_witness :
    (update_position wBody 1).1.angle = wBody.angle + 2 * Real.pi / wBody.orbital_period * 1 ∧
    (update_position wBody 1).1.position =
      (wBody.distance * Real.cos ((update_position wBody 1).1.angle),
       wBody.distance * Real.sin ((update_position wBody 1).1.angle) * Real.cos wBody.tilt,
       wBody.distance * Real.sin ((update_position wBody 1).1.angle) * Real.sin wBody.tilt) ∧
    (update_position wBody 1).2 = (update_position wBody 1).1.position :=
  claim1_update_position wBody 1 (by norm_num [wBody]) (by norm_num)

/-- Claim C2: while the paused flag is set, any number of `update` calls
leaves the whole simulator state, in particular every body's phase and
position and every trail buffer, unchanged. -/
theorem claim2_paused_noop (s : SolarSystem) (frames : List ℕ) (h : s.paused = true) :
    frames.foldl SolarSystem.update s = s := by
  induction frames with
  | nil => rfl
  | cons f fs ih => simpa [SolarSystem.update, h] using ih

/-- Concrete paused simulator state used to witness claim C2. -/
noncomputable def pausedSystem : SolarSystem :=
  { mkSolarSystem "logarithmic" (fun _ => 0) with paused := true }

/-- Witness for claim C2 at a concrete paused state and three frames. -/
theorem claim2_witness : [0, 1, 2].foldl SolarSystem.update pausedSystem = pausedSystem :=
  claim2_paused_noop pausedSystem [0, 1, 2] rfl

/-- Below the capacity the push is a plain append; at the capacity the
oldest entry is evicted: both cases collapse to one drop formula. -/
theorem pushTrail_eq_drop {α : Type} (cap : ℕ) (t : List α) (p : α)
    (ht : t.length ≤ cap) :
    pushTrail cap t p = (t ++ [p]).drop (t.length + 1 - cap) := by
  unfold pushTrail
  rcases lt_or_eq_of_le ht with h | h
  · rw [if_neg (by simp only [List.length_append, List.length_cons, List.length_nil]; omega),
      Nat.sub_eq_zero_of_le (by omega), List.drop_zero]
  · rw [if_pos (by simp only [List.length_append, List.length_cons, List.length_nil]; omega),
      ← List.drop_one]
    congr 1
    omega

/-- Pushing onto a trail within capacity keeps it within capacity. -/
theorem pushTrail_length_le {α : Type} (cap : ℕ) (t : List α) (p : α)
    (ht : t.length ≤ cap) : (pushTrail cap t p).length ≤ cap := by
  rw [pushTrail_eq_drop cap t p ht]
  simp only [List.length_drop, List.length_append, List.length_cons, List.length_nil]
  omega

/-- Folding a sequence of pushes over a within-capacity trail keeps exactly
the most recent `cap` points, in push order. -/
theorem foldl_pushTrail_eq_drop {α : Type} (cap : ℕ) (ps : List α) :
    ∀ t : List α, t.length ≤ cap →
      ps.foldl (pushTrail cap) t = (t ++ ps).drop (t.length + ps.length - cap) := by
  induction ps with
  | nil =>
      intro t ht
      simp [Nat.sub_eq_zero_of_le ht]
  | cons p ps ih =>
      intro t ht
      rw [List.foldl_cons, ih _ (pushTrail_length_le cap t p ht),
        pushTrail_eq_drop cap t p ht,
        ← List.drop_append_of_le_length
          (by simp only [List.length_append, List.length_cons, List.length_nil]; omega),
        List.drop_drop, ← List.append_cons]
      congr 1
      simp only [List.length_drop, List.length_append, List.length_cons, List.length_nil]
      omega

/-- Claim C3: starting from an empty trail buffer of capacity 100, after more
than 100 pushes the buffer holds exactly 100 entries, namely the last 100
pushed points in push order, and no push sequence ever makes it longer
than 100. -/
theorem claim3_trail_capacity {α : Type} (ps : List α) (h : 100 < ps.length) :
    (ps.foldl (pushTrail 100) []).length = 100 ∧
    ps.foldl (pushTrail 100) [] = ps.drop (ps.length - 100) ∧
    ∀ qs : List α, (qs.foldl (pushTrail 100) []).length ≤ 100 := by
  have key : ∀ qs : List α,
      qs.foldl (pushTrail 100) [] = qs.drop (qs.length - 100) := by
    intro qs
    simpa using foldl_pushTrail_eq_drop 100 qs [] (by simp)
  refine ⟨?_, key ps, fun qs => ?_⟩
  · rw [key ps, List.length_drop]
    omega
  · rw [key qs, List.length_drop]
    omega

/-- Witness for claim C3: 101 pushes into an empty buffer of capacity 100. -/
theorem claim3_witness :
    ((List.range 101).foldl (pushTrail 100) []).length = 100 ∧
    (List.range 101).foldl (pushTrail 100) [] =
      (List.range 101).drop ((List.range 101).length - 100) ∧
    ∀ qs : List ℕ, (qs.foldl (pushTrail 100) []).length ≤ 100 :=
  claim3_trail_capacity (List.range 101) (by simp)

/-- Sun body of the concrete two-body state used for claim C4. -/
noncomputable def sunC4 : CelestialBody :=
  { name := "Sun", radius := 696000, distance := 0, orbital_period := 0, color := "y",
    tilt := 0, angle := 0, position := (0, 0, 0) }

/-- Orbiting body of the concrete two-body state used for claim C4:
distance 1, period 1, no tilt, phase 0. -/
noncomputable def rockC4 : CelestialBody :=
  { name := "Rock", radius := 1, distance := 1, orbital_period := 1, color := "g",
    tilt := 0, angle := 0, position := (0, 0, 0) }

/-- Concrete unpaused simulator state in artistic mode used for claim C4. -/
noncomputable def sysC4 : SolarSystem :=
  { scale_mode := "artistic", time_step := 1, bodies := [sunC4, rockC4],
    trails := [("Rock", [])], trail_length := 100, paused := false,
    show_orbits := true, show_labels := true }

/-- Counterexample to claim C4: after one unpaused update of `sysC4` the
point sitting in the trail buffer is the raw position (1, 0, 0), while the
scaled display position of that point in artistic mode is (5, 0, 0), a
different point — so the pushed point is not the scaled one. -/
theorem claim4_counterexample :
    (sysC4.update 0).trails = [("Rock", [((1 : ℝ), (0 : ℝ), (0 : ℝ))])] ∧
    scaled_display_position "artistic" ((1 : ℝ), (0 : ℝ), (0 : ℝ)) =
      ((5 : ℝ), (0 : ℝ), (0 : ℝ)) ∧
    ((1 : ℝ), (0 : ℝ), (0 : ℝ)) ≠ ((5 : ℝ), (0 : ℝ), (0 : ℝ)) := by
  refine ⟨?_, ?_, ?_⟩
  · simp [sysC4, SolarSystem.update, update_position, rockC4, sunC4, updateTrailMap,
      pushTrail, Real.cos_two_pi, Real.sin_two_pi]
  · simp [scaled_display_position, get_scaled_distance, Real.one_rpow]
  · simp only [ne_eq, Prod.mk.injEq, not_and]
    intro h
    norm_num at h

/-- Embeds the render-side scaling of a stored trail (lines 200-208 of the
source): every stored point is multiplied componentwise by the
distance-scale ratio when the trail is drawn. -/
noncomputable def scaled_trail (scale_mode : String) (trail : List (ℝ × ℝ × ℝ)) :
    List (ℝ × ℝ × ℝ) :=
  trail.map (scaled_display_position scale_mode)

/-- Folding guarded dictionary writes updates every entry pointwise: each
key receives, in order, exactly the writes whose key matches it. -/
theorem foldl_updateTrailMap_apply {β : Type} (g : β → String)
    (F : β → List (ℝ × ℝ × ℝ) → List (ℝ × ℝ × ℝ)) (bs : List β) :
    ∀ ts : List (String × List (ℝ × ℝ × ℝ)),
      bs.foldl (fun ts b => updateTrailMap ts (g b) (F b)) ts =
        ts.map (fun kv =>
          (kv.1, (bs.filter (fun b => g b == kv.1)).foldl (fun tr b => F b tr) kv.2)) := by
  induction bs with
  | nil =>
      intro ts
      simp
  | cons b bs ih =>
      intro ts
      rw [List.foldl_cons, ih]
      unfold updateTrailMap
      rw [List.map_map]
      refine List.map_congr_left (fun kv _ => ?_)
      by_cases h : kv.1 = g b
      · have hb : (g b == kv.1) = true := beq_iff_eq.mpr h.symm
        simp [Function.comp, if_pos h, List.filter_cons, hb]
      · have hb : (g b == kv.1) = false := beq_eq_false_iff_ne.mpr (Ne.symm h)
        simp [Function.comp, if_neg h, List.filter_cons, hb]

/-- Render-time scaling commutes with the buffer step: scaling the stored
raw-point buffer yields exactly the buffer obtained by pushing the scaled
display point instead. -/
theorem scaled_trail_pushTrail (mode : String) (cap : ℕ) (t : List (ℝ × ℝ × ℝ))
    (p : ℝ × ℝ × ℝ) :
    scaled_trail mode (pushTrail cap t p) =
      pushTrail cap (scaled_trail mode t) (scaled_display_position mode p) := by
  unfold scaled_trail pushTrail
  by_cases h : cap < (t ++ [p]).length
  · rw [if_pos h, if_pos (by simpa using h), List.map_tail, List.map_append]
    rfl
  · rw [if_neg h, if_neg (by simpa using h), List.map_append]
    rfl

/-- Claim C4 as amended: on every unpaused advance, whatever the state,
every trail entry is updated by pushing the raw (unscaled) positions of the
advanced bodies whose name matches its key, as computed by
`update_position`; the distance-scale ratio is applied only at render time,
and render-time scaling of the raw buffer commutes with the push, producing
exactly the buffer of scaled display positions. -/
theorem claim4_amended (s : SolarSystem) (f : ℕ) (hp : s.paused = false) :
    ((s.update f).trails = s.trails.map (fun kv =>
      (kv.1,
        ((((s.bodies.drop 1).map (fun b => (update_position b s.time_step).1)).filter
            (fun b => b.name == kv.1)).foldl
          (fun tr b => pushTrail s.trail_length tr b.position) kv.2)))) ∧
    ∀ (t : List (ℝ × ℝ × ℝ)) (p : ℝ × ℝ × ℝ),
      scaled_trail s.scale_mode (pushTrail s.trail_length t p) =
        pushTrail s.trail_length (scaled_trail s.scale_mode t)
          (scaled_display_position s.scale_mode p) := by
  constructor
  · unfold SolarSystem.update
    rw [if_neg (by simp [hp])]
    exact foldl_updateTrailMap_apply (fun b => b.name)
      (fun b tr => pushTrail s.trail_length tr b.position)
      ((s.bodies.drop 1).map (fun b => (update_position b s.time_step).1)) s.trails
  · intro t p
    exact scaled_trail_pushTrail s.scale_mode s.trail_length t p

/-- Witness for the amended claim C4 at the concrete state `sysC4`. -/
theorem claim4_witness :
    ((sysC4.update 0).trails = sysC4.trails.map (fun kv =>
      (kv.1,
        ((((sysC4.bodies.drop 1).map (fun b => (update_position b sysC4.time_step).1)).filter
            (fun b => b.name == kv.1)).foldl
          (fun tr b => pushTrail sysC4.trail_length tr b.position) kv.2)))) ∧
    ∀ (t : List (ℝ × ℝ × ℝ)) (p : ℝ × ℝ × ℝ),
      scaled_trail sysC4.scale_mode (pushTrail sysC4.trail_length t p) =
        pushTrail sysC4.trail_length (scaled_trail sysC4.scale_mode t)
          (scaled_display_position sysC4.scale_mode p) :=
  claim4_amended sysC4 0 rfl

open Classical in
/-- Modelled from the spec: construction must reject a catalog holding a
non-central entry (orbital distance nonzero) whose period is at most zero.
The source performs no such check, so this definition follows the spec's
words, for comparison with `init_bodies`. -/
noncomputable def init_bodies_checked (catalog : List CatalogEntry) (rand : ℕ → ℝ) :
    Option (List CelestialBody × List (String × List (ℝ × ℝ × ℝ))) :=
  if ∃ e ∈ catalog, e.distance ≠ 0 ∧ e.period ≤ 0 then none
  else some (init_bodies catalog rand)

/-- Well-formed central entry of the malformed catalog used for claim C5. -/
noncomputable def starEntry : CatalogEntry :=
  { name := "Star", radius := 1000, distance := 0, period := 0, color := "y",
    tilt_degrees := 0 }

/-- Malformed entry used for claim C5: non-central (distance 1) with
orbital period 0. -/
noncomputable def rockEntry : CatalogEntry :=
  { name := "Rock", radius := 1, distance := 1, period := 0, color := "g",
    tilt_degrees := 0 }

/-- Malformed catalog for claim C5. -/
noncomputable def badCatalog : List CatalogEntry := [starEntry, rockEntry]

/-- Counterexample to claim C5: construction from the malformed catalog does
not fail — it yields the full body list, including the malformed body with
orbital period 0 — while the construction the spec asks for would reject
this catalog. -/
theorem claim5_counterexample :
    ((init_bodies badCatalog (fun _ => 0)).1.map
        (fun b => (b.name, b.distance, b.orbital_period)) =
      [("Star", (0 : ℝ), (0 : ℝ)), ("Rock", (1 : ℝ), (0 : ℝ))]) ∧
    init_bodies_checked badCatalog (fun _ => 0) = none := by
  constructor
  · rfl
  · rw [init_bodies_checked, if_pos]
    exact ⟨rockEntry, by simp [badCatalog], by norm_num [rockEntry], by norm_num [rockEntry]⟩

/-- Claim C5 as amended: construction performs no validation at all — every
catalog entry, malformed or not, is turned into a body carrying exactly the
entry's name, radius, distance and period; the period-0 division can only
surface later, inside `update_position`. -/
theorem claim5_amended (catalog : List CatalogEntry) (rand : ℕ → ℝ) :
    (init_bodies catalog rand).1.map
        (fun b => (b.name, b.radius, b.distance, b.orbital_period)) =
      catalog.map (fun e => (e.name, e.radius, e.distance, e.period)) := by
  unfold init_bodies
  have key : ∀ (i : ℕ) (es : List CatalogEntry),
      (init_bodies_aux rand i es).map
          (fun b => (b.name, b.radius, b.distance, b.orbital_period)) =
        es.map (fun e => (e.name, e.radius, e.distance, e.period)) := by
    intro i es
    induction es generalizing i with
    | nil => rfl
    | cons e es ih => simp [init_bodies_aux, mkCelestialBody, ih]
  exact key 0 catalog

/-- Counterexample to claim C6: with the unrecognized scale-mode string
"bogus" the radius-scaling function returns the artistic value 2.05 at
radius 100000, while the logarithmic formula returns 0.07 there — the
system does not behave as if the mode were logarithmic. -/
theorem claim6_counterexample :
    get_scaled_radius "bogus" 100000 = 2.05 ∧
    get_scaled_radius "logarithmic" 100000 = 0.07 ∧
    (2.05 : ℝ) ≠ 0.07 := by
  refine ⟨?_, ?_, by norm_num⟩
  · simp only [get_scaled_radius, if_neg (by decide : ¬("bogus" = "realistic")),
      if_neg (by decide : ¬("bogus" = "logarithmic"))]
    norm_num
  · simp only [get_scaled_radius, if_neg (by decide : ¬("logarithmic" = "realistic")),
      if_pos (rfl : "logarithmic" = "logarithmic")]
    have h1 : (100000 : ℝ) = 10 ^ (5 : ℕ) := by norm_num
    rw [h1, Real.logb_pow, Real.logb_self_eq_one (by norm_num)]
    norm_num

/-- Claim C6 as amended: an unrecognized scale-mode string is accepted, and
both scaling functions then behave as in the mode 'artistic' (the final
else branch), not 'logarithmic'; the fallback to 'logarithmic' happens only
in the CLI menu mapping, which resolves any unlisted choice string to
'logarithmic' before the system is constructed. -/
theorem claim6_amended (m : String) (h1 : m ≠ "realistic") (h2 : m ≠ "logarithmic") :
    (∀ r : ℝ, get_scaled_radius m r = get_scaled_radius "artistic" r) ∧
    (∀ d : ℝ, get_scaled_distance m d = get_scaled_distance "artistic" d) ∧
    ∀ choice : String, choice ∉ ["1", "2", "3", ""] →
      scale_mode_of_choice choice = "logarithmic" := by
  refine ⟨?_, ?_, ?_⟩
  · intro r
    simp [get_scaled_radius, h1, h2]
  · intro d
    simp [get_scaled_distance, h1, h2]
  · intro choice hc
    simp only [List.mem_cons, not_or] at hc
    obtain ⟨hc1, hc2, hc3, hc4, _⟩ := hc
    simp [scale_mode_of_choice, List.lookup, beq_eq_false_iff_ne.mpr hc1,
      beq_eq_false_iff_ne.mpr hc2, beq_eq_false_iff_ne.mpr hc3,
      beq_eq_false_iff_ne.mpr hc4]

/-- Witness for the amended claim C6 at the concrete mode string "bogus". -/
theorem claim6_witness :
    (∀ r : ℝ, get_scaled_radius "bogus" r = get_scaled_radius "artistic" r) ∧
    (∀ d : ℝ, get_scaled_distance "bogus" d = get_scaled_distance "artistic" d) ∧
    ∀ choice : String, choice ∉ ["1", "2", "3", ""] →
      scale_mode_of_choice choice = "logarithmic" :=
  claim6_amended "bogus" (by decide) (by decide)

/-- Claim C7: the speed control clamps every requested value into
[0.1, 10.0] and stores it as the per-tick time step: 0 becomes 0.1, 50
becomes 10.0, in-range values are kept, and no value is rejected. -/
theorem claim7_speed_clamp (s : SolarSystem) (v : ℝ) :
    (update_speed s v).time_step = max 0.1 (min 10.0 v) ∧
    (update_speed s 0).time_step = 0.1 ∧
    (update_speed s 50).time_step = 10.0 ∧
    (0.1 ≤ v → v ≤ 10.0 → (update_speed s v).time_step = v) ∧
    0.1 ≤ (update_speed s v).time_step ∧
    (update_speed s v).time_step ≤ 10.0 := by
  refine ⟨rfl, ?_, ?_, fun h1 h2 => ?_, ?_, ?_⟩
  · show max 0.1 (min 10.0 (0 : ℝ)) = 0.1
    rw [min_eq_right (by norm_num : (0 : ℝ) ≤ 10.0),
      max_eq_left (by norm_num : (0 : ℝ) ≤ 0.1)]
  · show max 0.1 (min 10.0 (50 : ℝ)) = 10.0
    rw [min_eq_left (by norm_num : (10.0 : ℝ) ≤ 50),
      max_eq_right (by norm_num : (0.1 : ℝ) ≤ 10.0)]
  · show max 0.1 (min 10.0 v) = v
    rw [min_eq_right h2, max_eq_right h1]
  · exact le_max_left _ _
  · exact max_le (by norm_num) (min_le_left _ _)

/-- Witness for claim C7 at a concrete state and speed value. -/
theorem claim7_witness :
    (update_speed (mkSolarSystem "logarithmic" (fun _ => 0)) 0.5).time_step =
      max 0.1 (min 10.0 0.5) ∧
    (update_speed (mkSolarSystem "logarithmic" (fun _ => 0)) 0).time_step = 0.1 ∧
    (update_speed (mkSolarSystem "logarithmic" (fun _ => 0)) 50).time_step = 10.0 ∧
    ((0.1 : ℝ) ≤ 0.5 → (0.5 : ℝ) ≤ 10.0 →
      (update_speed (mkSolarSystem "logarithmic" (fun _ => 0)) 0.5).time_step = 0.5) ∧
    0.1 ≤ (update_speed (mkSolarSystem "logarithmic" (fun _ => 0)) 0.5).time_step ∧
    (update_speed (mkSolarSystem "logarithmic" (fun _ => 0)) 0.5).time_step ≤ 10.0 :=
  claim7_speed_clamp (mkSolarSystem "logarithmic" (fun _ => 0)) 0.5

/-- Catalog radii of the nine bodies, in increasing order. -/
noncomputable def catalogRadii : List ℝ :=
  [2440, 3390, 6052, 6371, 24622, 25362, 58232, 69911, 696000]

/-- Catalog orbital distances of the nine bodies, in increasing order. -/
noncomputable def catalogDistances : List ℝ :=
  [0, 0.39, 0.72, 1.0, 1.52, 5.20, 9.54, 19.19, 30.07]

/-- Catalog radii are positive and increasing. -/
theorem catalogRadii_chain :
    List.Chain' (fun a b : ℝ => 0 < a ∧ a ≤ b) catalogRadii := by
  norm_num [catalogRadii, List.chain'_cons, List.chain'_singleton]

/-- Catalog distances are non-negative and increasing. -/
theorem catalogDistances_chain :
    List.Chain' (fun a b : ℝ => 0 ≤ a ∧ a ≤ b) catalogDistances := by
  norm_num [catalogDistances, List.chain'_cons, List.chain'_singleton]

/-- Radius scaling is monotone non-decreasing on positive radii, in every
scale mode. -/
theorem scaled_radius_mono (m : String) (a b : ℝ) (ha : 0 < a) (hab : a ≤ b) :
    get_scaled_radius m a ≤ get_scaled_radius m b := by
  unfold get_scaled_radius
  split_ifs
  · linarith
  · have h := Real.logb_le_logb_of_le (by norm_num : (1 : ℝ) < 10) ha hab
    nlinarith
  · linarith

/-- Distance scaling is monotone non-decreasing on non-negative distances,
in every scale mode. -/
theorem scaled_distance_mono (m : String) (a b : ℝ) (ha : 0 ≤ a) (hab : a ≤ b) :
    get_scaled_distance m a ≤ get_scaled_distance m b := by
  unfold get_scaled_distance
  split_ifs with hm1 hm2 hz1 hz2 hz3
  · exact hab
  · exact le_refl 0
  · have hb : (0 : ℝ) < b := lt_of_le_of_ne (ha.trans hab) (Ne.symm hz2)
    have h1 : (0 : ℝ) ≤ Real.logb 10 (b * 10 + 1) :=
      Real.logb_nonneg (by norm_num) (by nlinarith)
    nlinarith
  · have hpa : (0 : ℝ) < a := lt_of_le_of_ne ha (Ne.symm hz1)
    have : (0 : ℝ) < b := lt_of_lt_of_le hpa hab
    exact absurd hz3 (by intro h; linarith [h ▸ this])
  · have h := Real.logb_le_logb_of_le (by norm_num : (1 : ℝ) < 10)
      (by nlinarith : (0 : ℝ) < a * 10 + 1) (by nlinarith : a * 10 + 1 ≤ b * 10 + 1)
    nlinarith
  · exact mul_le_mul_of_nonneg_right
      (Real.rpow_le_rpow ha hab (by norm_num)) (by norm_num)

/-- Claim C8: in each of the three scale modes, radius scaling is monotone
non-decreasing over the catalog radii and distance scaling is monotone
non-decreasing over the catalog distances; logarithmic distance scaling
maps distance 0 to exactly 0. -/
theorem claim8_scale_monotonicity :
    List.Chain' (· ≤ ·) (catalogRadii.map (get_scaled_radius "realistic")) ∧
    List.Chain' (· ≤ ·) (catalogRadii.map (get_scaled_radius "logarithmic")) ∧
    List.Chain' (· ≤ ·) (catalogRadii.map (get_scaled_radius "artistic")) ∧
    List.Chain' (· ≤ ·) (catalogDistances.map (get_scaled_distance "realistic")) ∧
    List.Chain' (· ≤ ·) (catalogDistances.map (get_scaled_distance "logarithmic")) ∧
    List.Chain' (· ≤ ·) (catalogDistances.map (get_scaled_distance "artistic")) ∧
    get_scaled_distance "logarithmic" 0 = 0 := by
  refine ⟨?_, ?_, ?_, ?_, ?_, ?_, ?_⟩
  · exact List.chain'_map_of_chain' _
      (fun a b hab => scaled_radius_mono _ a b hab.1 hab.2) catalogRadii_chain
  · exact List.chain'_map_of_chain' _
      (fun a b hab => scaled_radius_mono _ a b hab.1 hab.2) catalogRadii_chain
  · exact List.chain'_map_of_chain' _
      (fun a b hab => scaled_radius_mono _ a b hab.1 hab.2) catalogRadii_chain
  · exact List.chain'_map_of_chain' _
      (fun a b hab => scaled_distance_mono _ a b hab.1 hab.2) catalogDistances_chain
  · exact List.chain'_map_of_chain' _
      (fun a b hab => scaled_distance_mono _ a b hab.1 hab.2) catalogDistances_chain
  · exact List.chain'_map_of_chain' _
      (fun a b hab => scaled_distance_mono _ a b hab.1 hab.2) catalogDistances_chain
  · simp [get_scaled_distance]

/-- One update step never touches the first body in the list. -/
theorem update_head (s : SolarSystem) (f : ℕ) :
    (s.update f).bodies.head? = s.bodies.head? := by
  unfold SolarSystem.update
  by_cases h : s.paused = true
  · simp [h]
  · simp only [h, if_false]
    cases s.bodies with
    | nil => simp
    | cons a l => simp

/-- The guarded dictionary write leaves the key list unchanged. -/
theorem updateTrailMap_keys (ts : List (String × List (ℝ × ℝ × ℝ))) (k : String)
    (f : List (ℝ × ℝ × ℝ) → List (ℝ × ℝ × ℝ)) :
    (updateTrailMap ts k f).map Prod.fst = ts.map Prod.fst := by
  unfold updateTrailMap
  rw [List.map_map]
  refine List.map_congr_left (fun kv _ => ?_)
  by_cases h : kv.1 = k <;> simp [h]

/-- Folding guarded dictionary writes leaves the key list unchanged. -/
theorem foldl_updateTrailMap_keys {β : Type} (g : β → String)
    (F : β → List (ℝ × ℝ × ℝ) → List (ℝ × ℝ × ℝ)) (bs : List β) :
    ∀ ts : List (String × List (ℝ × ℝ × ℝ)),
      (bs.foldl (fun ts b => updateTrailMap ts (g b) (F b)) ts).map Prod.fst =
        ts.map Prod.fst := by
  induction bs with
  | nil => intro ts; rfl
  | cons b bs ih => intro ts; rw [List.foldl_cons, ih, updateTrailMap_keys]

/-- One update step leaves the set of trail keys unchanged. -/
theorem update_trail_keys (s : SolarSystem) (f : ℕ) :
    (s.update f).trails.map Prod.fst = s.trails.map Prod.fst := by
  unfold SolarSystem.update
  by_cases h : s.paused = true
  · simp [h]
  · simp only [h, if_false]
    exact foldl_updateTrailMap_keys _ _ _ _

/-- Claim C9: the central body — the catalog entry with distance 0 and
period 0, stored first in the body list — is never advanced: after any
number of update calls its phase is still the initial draw and its position
is still (0, 0, 0), and no trail buffer for it ever exists, so nothing is
ever pushed into one. -/
theorem claim9_central_body (mode : String) (rand : ℕ → ℝ) (frames : List ℕ) :
    (frames.foldl SolarSystem.update (mkSolarSystem mode rand)).bodies.head? =
      some (mkCelestialBody "Sun" 696000 0 0 "#FDB813" 0 (rand 0)) ∧
    (mkCelestialBody "Sun" 696000 0 0 "#FDB813" 0 (rand 0)).angle = rand 0 ∧
    (mkCelestialBody "Sun" 696000 0 0 "#FDB813" 0 (rand 0)).position = (0, 0, 0) ∧
    ∀ kv ∈ (frames.foldl SolarSystem.update (mkSolarSystem mode rand)).trails,
      kv.1 ≠ "Sun" := by
  have hhead : ∀ (fs : List ℕ) (s : SolarSystem),
      (fs.foldl SolarSystem.update s).bodies.head? = s.bodies.head? := by
    intro fs
    induction fs with
    | nil => intro s; rfl
    | cons f fs ih => intro s; rw [List.foldl_cons, ih, update_head]
  have hkeys : ∀ (fs : List ℕ) (s : SolarSystem),
      (fs.foldl SolarSystem.update s).trails.map Prod.fst = s.trails.map Prod.fst := by
    intro fs
    induction fs with
    | nil => intro s; rfl
    | cons f fs ih => intro s; rw [List.foldl_cons, ih, update_trail_keys]
  refine ⟨?_, rfl, rfl, ?_⟩
  · rw [hhead]
    rfl
  · intro kv hkv hkv1
    have h1 := List.mem_map_of_mem Prod.fst hkv
    rw [hkv1, hkeys frames (mkSolarSystem mode rand)] at h1
    have h2 : (mkSolarSystem mode rand).trails.map Prod.fst =
        ["Mercury", "Venus", "Earth", "Mars", "Jupiter", "Saturn",
         "Uranus", "Neptune"] := rfl
    rw [h2] at h1
    exact absurd h1 (by decide)

/-- Every body built by the construction loop carries one of the random
draws as its starting angle. -/
theorem init_bodies_aux_angle (rand : ℕ → ℝ) (es : List CatalogEntry) :
    ∀ (i : ℕ) (b : CelestialBody), b ∈ init_bodies_aux rand i es →
      ∃ j, b.angle = rand j := by
  induction es with
  | nil =>
      intro i b hb
      cases hb
  | cons e es ih =>
      intro i b hb
      simp only [init_bodies_aux, List.mem_cons] at hb
      rcases hb with h | h
      · exact ⟨i, by rw [h]; rfl⟩
      · exact ih (i + 1) b h

/-- Claim C10: every body, the central one included, starts with a phase
angle equal to a random draw from [0, 2*pi) — so all initial angles lie in
[0, 2*pi) — and two constructions from the identical catalog can differ:
construction is not deterministic. The random source is modelled as the
stream of draws consumed by the constructor calls. -/
theorem claim10_random_phase (rand : ℕ → ℝ)
    (h : ∀ i, rand i ∈ Set.Ico 0 (2 * Real.pi)) :
    (∀ b ∈ (mkSolarSystem "logarithmic" rand).bodies,
      b.angle ∈ Set.Ico 0 (2 * Real.pi)) ∧
    ∃ r1 r2 : ℕ → ℝ,
      (∀ i, r1 i ∈ Set.Ico 0 (2 * Real.pi)) ∧
      (∀ i, r2 i ∈ Set.Ico 0 (2 * Real.pi)) ∧
      mkSolarSystem "logarithmic" r1 ≠ mkSolarSystem "logarithmic" r2 := by
  constructor
  · intro b hb
    obtain ⟨j, hj⟩ := init_bodies_aux_angle rand bodies_data 0 b hb
    rw [hj]
    exact h j
  · refine ⟨(fun _ => 0), (fun _ => 1), fun i => ⟨le_refl 0, Real.two_pi_pos⟩,
      fun i => ⟨zero_le_one, ?_⟩, ?_⟩
    · show (1 : ℝ) < 2 * Real.pi
      nlinarith [Real.pi_gt_three]
    · intro heq
      have h0 : (mkSolarSystem "logarithmic" (fun _ => 0)).bodies.head? =
          (mkSolarSystem "logarithmic" (fun _ => 1)).bodies.head? := by rw [heq]
      have h1 : (0 : ℝ) = 1 :=
        congrArg (fun o => (o.map CelestialBody.angle).getD 37) h0
      exact zero_ne_one h1

/-- Witness for claim C10 at the constant-zero stream of draws. -/
theorem claim10_witness :
    (∀ b ∈ (mkSolarSystem "logarithmic" (fun _ => 0)).bodies,
      b.angle ∈ Set.Ico 0 (2 * Real.pi)) ∧
    ∃ r1 r2 : ℕ → ℝ,
      (∀ i, r1 i ∈ Set.Ico 0 (2 * Real.pi)) ∧
      (∀ i, r2 i ∈ Set.Ico 0 (2 * Real.pi)) ∧
      mkSolarSystem "logarithmic" r1 ≠ mkSolarSystem "logarithmic" r2 :=
  claim10_random_phase (fun _ => 0) (fun i => ⟨le_refl 0, Real.two_pi_pos⟩)
